import Mathlib

set_option maxRecDepth 4000

/-!
Verification development for the ai-service-for-edu lesson-authoring backend.

The Lean definitions below are a shallow embedding of the Python source under
`app/`: pure helpers are translated directly; every external call (LLM
completion, retrieval, image fetch) is modelled as an explicit input of type
`Except String α` so that both the success and the failure path of the caller
can be analysed.  Python regular-expression primitives are implemented as
executable character-list matchers for exactly the patterns the source uses;
`str.lower` is modelled by ASCII case folding, which agrees with Python on the
ASCII inputs the theorems evaluate.
-/

namespace EduAI

/-- ASCII lowercase letter test, matching the regex class `[a-z]`. -/
def isAZ (c : Char) : Bool := 'a' ≤ c && c ≤ 'z'

/-- ASCII uppercase letter test, matching the regex class `[A-Z]`. -/
def isAZUpper (c : Char) : Bool := 'A' ≤ c && c ≤ 'Z'

/-- ASCII letter, matching the regex class `[a-zA-Z]`. -/
def isAsciiAlpha (c : Char) : Bool := isAZ c || isAZUpper c

/-- ASCII digit, matching the regex class `\d` on ASCII text. -/
def isAsciiDigit (c : Char) : Bool := '0' ≤ c && c ≤ '9'

/-- Python regex `\w` on ASCII text: `[a-zA-Z0-9_]`. -/
def isWordChar (c : Char) : Bool := isAsciiAlpha c || isAsciiDigit c || c == '_'

/-- Python regex `\s` on ASCII text: space, tab, LF, CR, vertical tab, form feed. -/
def isPySpace (c : Char) : Bool :=
  c == ' ' || c == '\t' || c == '\n' || c == '\r' || c == Char.ofNat 11 || c == Char.ofNat 12

/-- Python `str.lower` for the ASCII inputs this embedding evaluates. -/
def pyLower (s : String) : String := String.mk (s.toList.map Char.toLower)

/-- Python `min` on two integers. -/
def pyMin (a b : Int) : Int := if a ≤ b then a else b

/-- Python `min` on two naturals. -/
def pyMinNat (a b : Nat) : Nat := if a ≤ b then a else b

/-- Whether the first list is a prefix of the second (Python `str.startswith`). -/
def startsWithList : List Char → List Char → Bool
  | [], _ => true
  | _ :: _, [] => false
  | a :: as, b :: bs => a == b && startsWithList as bs

/-- Substring containment: whether `pat` occurs inside the second list
(Python `pat in text`). -/
def containsSub (pat : List Char) : List Char → Bool
  | [] => pat.isEmpty
  | c :: rest => startsWithList pat (c :: rest) || containsSub pat rest

/-- Drop leading Python whitespace, matching a greedy `\s*`. -/
def dropSpaces (l : List Char) : List Char := l.dropWhile isPySpace

/-- Number of maximal digit runs in a character list: the length of
`re.findall(r"\d+", content)`. -/
def countDigitRuns : List Char → Nat
  | [] => 0
  | [c] => if isAsciiDigit c then 1 else 0
  | c :: d :: rest =>
      (if isAsciiDigit c && !isAsciiDigit d then 1 else 0) + countDigitRuns (d :: rest)

/-- Numeric value of an ASCII digit character. -/
def digitVal (c : Char) : Nat := c.toNat - '0'.toNat

/-- Value of a digit string, as computed by Python `int(...)`. -/
def digitsToNat (l : List Char) : Nat := l.foldl (fun a c => a * 10 + digitVal c) 0

/-- Exact rational value of a decimal literal `intPart.fracPart`, the value
Python `float(...)` denotes on the digit strings produced by the extraction
regexes. -/
def decimalToRat (intPart fracPart : List Char) : ℚ :=
  (digitsToNat intPart : ℚ) + (digitsToNat fracPart : ℚ) / ((10 : ℚ) ^ fracPart.length)

/-- Opening brace character. -/
def lbrace : Char := Char.ofNat 123

/-- Closing brace character. -/
def rbrace : Char := Char.ofNat 125

/-- JSON-like dynamic values: the shape of parsed LLM payloads and of the
Python dict/list structures the services build. `int` and `rat` separate the
Python `int` and `float` cases. -/
inductive Json where
  | null : Json
  | bool (b : Bool) : Json
  | int (n : Int) : Json
  | rat (q : ℚ) : Json
  | str (s : String) : Json
  | arr (elems : List Json) : Json
  | obj (fields : List (String × Json)) : Json
deriving Repr, Inhabited

/-- Hexadecimal digit character (uppercase), for percent escapes. -/
def hexDigit (n : Nat) : Char :=
  if n < 10 then Char.ofNat ('0'.toNat + n) else Char.ofNat ('A'.toNat + n - 10)

/-- UTF-8 bytes of a character, used by `urllib.parse.quote`. -/
def utf8Bytes (c : Char) : List Nat :=
  let n := c.toNat
  if n < 0x80 then [n]
  else if n < 0x800 then [0xC0 + n / 0x40, 0x80 + n % 0x40]
  else if n < 0x10000 then [0xE0 + n / 0x1000, 0x80 + (n / 0x40) % 0x40, 0x80 + n % 0x40]
  else [0xF0 + n / 0x40000, 0x80 + (n / 0x1000) % 0x40, 0x80 + (n / 0x40) % 0x40, 0x80 + n % 0x40]

/-- Characters `urllib.parse.quote` leaves unescaped with its default
`safe="/"`: unreserved characters plus the slash. -/
def quoteSafe (c : Char) : Bool :=
  isAsciiAlpha c || isAsciiDigit c || c == '_' || c == '.' || c == '-' || c == '~' || c == '/'

/-- `urllib.parse.quote` with default arguments. -/
def percentQuote (s : String) : String :=
  String.join (s.toList.map fun c =>
    if quoteSafe c then String.singleton c
    else String.join ((utf8Bytes c).map fun b =>
      "%" ++ String.singleton (hexDigit (b / 16)) ++ String.singleton (hexDigit (b % 16))))

/-- Render a rational that is a finite decimal the way Python `repr` renders
the corresponding float (`100.0`, `1.5`, ...).  All values reachable from the
extraction code are finite decimals; other rationals fall back to a
fraction rendering. -/
def ratFloatStr (q : ℚ) : String :=
  let neg := q < 0
  let a : ℚ := |q|
  match (List.range 31).find? (fun e => (a * (10 : ℚ) ^ e).den == 1) with
  | some e =>
      let n := (a * (10 : ℚ) ^ e).num.toNat
      let sign := if neg then "-" else ""
      if e == 0 then sign ++ toString n ++ ".0"
      else
        let digits := toString n
        let digits := String.mk (List.replicate (e + 1 - digits.length) '0') ++ digits
        sign ++ String.mk (digits.toList.take (digits.length - e)) ++ "." ++
          String.mk (digits.toList.drop (digits.length - e))
  | none => toString q.num ++ "/" ++ toString q.den

/-- Escape one character the way `json.dumps` (default `ensure_ascii=True`)
does inside a string literal. -/
def jsonEscapeChar (c : Char) : String :=
  if c == '"' then "\\\""
  else if c == '\\' then "\\\\"
  else if c == '\n' then "\\n"
  else if c == '\t' then "\\t"
  else if c == '\r' then "\\r"
  else if c.toNat ≥ 0x20 && c.toNat < 0x7F then String.singleton c
  else
    let n := c.toNat % 0x10000
    "\\u" ++ String.mk [hexDigit (n / 0x1000 % 16), hexDigit (n / 0x100 % 16),
      hexDigit (n / 16 % 16), hexDigit (n % 16)]

/-- String-literal escaping of `json.dumps`. -/
def jsonEscape (s : String) : String := String.join (s.toList.map jsonEscapeChar)

/-- Python `json.dumps` with default separators. -/
def jsonDumps : Json → String
  | .null => "null"
  | .bool true => "true"
  | .bool false => "false"
  | .int n => toString n
  | .rat q => ratFloatStr q
  | .str s => "\"" ++ jsonEscape s ++ "\""
  | .arr l => "[" ++ String.intercalate ", " (l.attach.map (fun x => jsonDumps x.1)) ++ "]"
  | .obj l => String.singleton lbrace ++
      String.intercalate ", "
        (l.attach.map (fun x =>
          "\"" ++ jsonEscape x.1.1 ++ "\": " ++ jsonDumps x.1.2)) ++
      String.singleton rbrace
decreasing_by
  · have := List.sizeOf_lt_of_mem x.2; simp_all; omega
  · have h := List.sizeOf_lt_of_mem x.2
    obtain ⟨⟨k, v⟩, hm⟩ := x
    simp_all [Prod.mk.sizeOf_spec]
    omega

/-- Python `repr` on the same dynamic values (single-quoted strings); the
behaviour of `str(...)` on lists and dicts. -/
def pyRepr : Json → String
  | .null => "None"
  | .bool true => "True"
  | .bool false => "False"
  | .int n => toString n
  | .rat q => ratFloatStr q
  | .str s => "\x27" ++ s ++ "\x27"
  | .arr l => "[" ++ String.intercalate ", " (l.attach.map (fun x => pyRepr x.1)) ++ "]"
  | .obj l => String.singleton lbrace ++
      String.intercalate ", "
        (l.attach.map (fun x =>
          "\x27" ++ x.1.1 ++ "\x27: " ++ pyRepr x.1.2)) ++
      String.singleton rbrace
decreasing_by
  · have := List.sizeOf_lt_of_mem x.2; simp_all; omega
  · have h := List.sizeOf_lt_of_mem x.2
    obtain ⟨⟨k, v⟩, hm⟩ := x
    simp_all [Prod.mk.sizeOf_spec]
    omega

/-- Python `str(...)`: identity on strings, `repr` on everything else. -/
def pyStr : Json → String
  | .str s => s
  | v => pyRepr v

/-- Lookup of a key in a JSON object (`d.get(key)`); `none` when the value is
not an object or the key is absent. -/
def objLookup (v : Json) (key : String) : Option Json :=
  match v with
  | .obj l => (l.find? (fun p => p.1 == key)).map (·.2)
  | _ => none

/-- Python dict item assignment `d[key] = value`: replace in place when the
key exists, append otherwise. -/
def objSet (v : Json) (key : String) (value : Json) : Json :=
  match v with
  | .obj l =>
      if l.any (fun p => p.1 == key) then
        .obj (l.map (fun p => if p.1 == key then (p.1, value) else p))
      else .obj (l ++ [(key, value)])
  | other => other

/-! ### Generic driver for `re.findall`

Each matcher takes the character list at a candidate position and returns the
extracted group(s) together with the remaining characters after the match, or
`none`.  The driver scans left to right: on a match it continues after the
match (all matchers below consume at least one character), otherwise it
advances one character, exactly as the CPython scanner does.  The fuel is the
length of the input, an upper bound on the number of scanning steps. -/

/-- Fuelled scanning loop of `re.findall`. -/
def findallAux {α : Type} (matchAt : List Char → Option (α × List Char)) :
    Nat → List Char → List α
  | 0, _ => []
  | _ + 1, [] => []
  | fuel + 1, c :: rest =>
      match matchAt (c :: rest) with
      | some (m, r) => m :: findallAux matchAt fuel r
      | none => findallAux matchAt fuel rest

/-- `re.findall` over a string with one of the matchers below. -/
def findallGen {α : Type} (matchAt : List Char → Option (α × List Char))
    (content : String) : List α :=
  findallAux matchAt content.toList.length content.toList

/-! ### ContentAnalyzer (`app/services/content_analyzer.py`) -/

/-- Characters of the class `[a-z0-9\+\-\*/\^]` of the first math pattern. -/
def isMathOpChar (c : Char) : Bool :=
  isAZ c || isAsciiDigit c || c == '+' || c == '-' || c == '*' || c == '/' || c == '^'

/-- `re.search` for the first math pattern `[a-z]\s*=\s*[a-z0-9\+\-\*/\^]+`
(an equality such as `x = y + z`). -/
def mathEqSearch : List Char → Bool
  | [] => false
  | c :: rest =>
      (isAZ c &&
        (match dropSpaces rest with
         | e :: r =>
             e == '=' &&
               (match dropSpaces r with
                | d :: _ => isMathOpChar d
                | [] => false)
         | [] => false)) || mathEqSearch rest

/-- Number of math pattern families (out of 5) that match the text: the
`math_score` of `ContentAnalyzer._quick_detect`. -/
def mathScore (text : List Char) : Nat :=
  (if mathEqSearch text then 1 else 0) +
  (if containsSub "\\frac".toList text || containsSub "\\sqrt".toList text ||
      containsSub "\\sum".toList text || containsSub "\\int".toList text then 1 else 0) +
  (if containsSub "^2".toList text || containsSub "^3".toList text then 1 else 0) +
  (if containsSub "equation".toList text || containsSub "formula".toList text ||
      containsSub "calculate".toList text then 1 else 0) +
  (if containsSub "sin".toList text || containsSub "cos".toList text ||
      containsSub "tan".toList text || containsSub "log".toList text ||
      containsSub "ln".toList text then 1 else 0)

/-- The mojibake arrow literal in the source's flow keyword list
(UTF-8 `→` read back as Latin-1). -/
def arrowMojibake : String := String.mk [Char.ofNat 0xE2, Char.ofNat 0x2020, Char.ofNat 0x2019]

/-- Process/flow keywords of `_quick_detect`. -/
def flowKeywords : List String :=
  ["process", "cycle", "flow", "steps", "sequence", "stages",
   "pathway", "timeline", "workflow", arrowMojibake, "->"]

/-- The `flow_score` of `_quick_detect`: how many flow keywords occur. -/
def flowScore (text : List Char) : Nat :=
  (flowKeywords.filter (fun kw => containsSub kw.toList text)).length

/-- Chart/data keywords of `_quick_detect`. -/
def dataKeywords : List String :=
  ["data", "graph", "chart", "statistics", "population",
   "growth", "comparison", "percentage", "rate"]

/-- Whether any data keyword occurs in the text. -/
def anyDataKeyword (text : List Char) : Bool :=
  dataKeywords.any (fun kw => containsSub kw.toList text)

/-- Matcher at one position for the analyzer equation pattern
`([a-zA-Z]+\s*=\s*[^.]+)` of `_extract_math_metadata`. -/
def matchEqAt (l : List Char) : Option (String × List Char) :=
  let (letters, r1) := l.span isAsciiAlpha
  if letters.isEmpty then none
  else
    let (sp1, r2) := r1.span isPySpace
    match r2 with
    | e :: r3 =>
        if e == '=' then
          let (sp2, r4) := r3.span isPySpace
          let (body, r5) := r4.span (fun c => c != '.')
          if body.isEmpty then none
          else some (String.mk (letters ++ sp1 ++ e :: sp2 ++ body), r5)
        else none
    | [] => none

/-- Matcher at one position for the LaTeX command pattern
`(\\[a-z]+\{[^}]+\})` of `_extract_math_metadata`. -/
def matchLatexCmdAt (l : List Char) : Option (String × List Char) :=
  match l with
  | c :: r1 =>
      if c == '\\' then
        let (letters, r2) := r1.span isAZ
        if letters.isEmpty then none
        else
          match r2 with
          | b :: r3 =>
              if b == lbrace then
                let (body, r4) := r3.span (fun ch => ch != rbrace)
                if body.isEmpty then none
                else
                  match r4 with
                  | b2 :: r5 =>
                      if b2 == rbrace then
                        some (String.mk (c :: letters ++ b :: body ++ [b2]), r5)
                      else none
                  | [] => none
              else none
          | [] => none
      else none
  | [] => none

/-- `ContentAnalyzer._extract_math_metadata`: the extracted equations list
before being wrapped in the metadata dict (capped to 5 entries). -/
def extractMathEquations (content : String) : List String :=
  let equations := findallGen matchEqAt content ++ findallGen matchLatexCmdAt content
  if equations.isEmpty then [] else equations.take 5

/-- Continuation `\s*:\s*(\d+)` of the analyzer chart pattern. -/
def matchColonInt (r : List Char) : Option (Nat × List Char) :=
  match dropSpaces r with
  | c :: r1 =>
      if c == ':' then
        let (ds, r3) := (dropSpaces r1).span isAsciiDigit
        if ds.isEmpty then none else some (digitsToNat ds, r3)
      else none
  | [] => none

/-- Matcher at one position for the analyzer chart pattern
`(\d{4}|\w+)\s*:\s*(\d+)` of `_extract_chart_metadata`.  The regex tries the
four-digit branch first (with its continuation) and falls back to `\w+`. -/
def matchLabelIntAt (l : List Char) : Option ((String × Nat) × List Char) :=
  let d4 := l.take 4
  let tryA : Option ((String × Nat) × List Char) :=
    if d4.length == 4 && d4.all isAsciiDigit then
      match matchColonInt (l.drop 4) with
      | some (n, rest) => some ((String.mk d4, n), rest)
      | none => none
    else none
  match tryA with
  | some x => some x
  | none =>
      let (w, r) := l.span isWordChar
      if w.isEmpty then none
      else
        match matchColonInt r with
        | some (n, rest) => some ((String.mk w, n), rest)
        | none => none

/-- `ContentAnalyzer._detect_diagram_type`. -/
def detectDiagramType (text : List Char) : String :=
  if ["timeline", "history", "chronology", "era"].any
      (fun kw => containsSub kw.toList text) then "timeline"
  else if ["relationship", "connected", "related", "concept"].any
      (fun kw => containsSub kw.toList text) then "mindmap"
  else "flowchart"

/-- `ContentAnalyzer._extract_chart_metadata`. -/
def extractChartMetadata (content : String) : Json :=
  let pts := findallGen matchLabelIntAt content
  let lower := (pyLower content).toList
  let chartType :=
    if containsSub "trend".toList lower || containsSub "over time".toList lower then "line"
    else if containsSub "percentage".toList lower || containsSub "proportion".toList lower then "pie"
    else "bar"
  Json.obj [("chartType", .str chartType),
            ("dataPoints", .arr (pts.map fun p =>
              .obj [("label", .str p.1), ("value", .int p.2)]))]

/-- Classification result of the analyzer: visual type, confidence 0-100,
type-specific metadata, rationale. -/
structure Analysis where
  visualType : String
  confidence : Int
  metadata : Json
  reasoning : String
deriving Repr

/-- `ContentAnalyzer._quick_detect`: fast pattern-based detection; `none` when
no detector fires. -/
def quickDetect (title content : String) : Option Analysis :=
  let text := (pyLower (title ++ " " ++ content)).toList
  let ms := mathScore text
  if ms ≥ 2 then
    some { visualType := "math",
           confidence := pyMin 95 (70 + (ms : Int) * 5),
           metadata := Json.obj [("equations", .arr ((extractMathEquations content).map .str))],
           reasoning := "Detected mathematical notation and equations" }
  else
    let fs := flowScore text
    if fs ≥ 2 then
      some { visualType := "diagram",
             confidence := pyMin 90 (60 + (fs : Int) * 8),
             metadata := Json.obj [("diagramType", .str (detectDiagramType text))],
             reasoning := "Detected process/flow indicators" }
    else
      let numberCount := countDigitRuns content.toList
      if numberCount ≥ 3 && anyDataKeyword text then
        some { visualType := "chart",
               confidence := pyMin 90 (65 + (pyMinNat numberCount 5 : Int) * 5),
               metadata := extractChartMetadata content,
               reasoning := "Detected numerical data with data visualization keywords" }
      else none

/-- Raw JSON reply of the LLM classifier before validation; every field may be
absent.  The completion call itself is modelled by `Except`. -/
structure AiRaw where
  visualType : Option String
  confidence : Option Int
  metadata : Option Json
  reasoning : Option String

/-- Sanitisation of `metadata['dataPoints']` performed by `_ai_analyze` for
chart results. -/
def sanitizeChartMeta (md : Json) : Json :=
  match objLookup md "dataPoints" with
  | none => md
  | some dps =>
      match dps with
      | .arr l =>
          objSet md "dataPoints" (.arr (l.map fun dp =>
            match dp with
            | .obj _ =>
                .obj [("label", .str (pyStr ((objLookup dp "label").getD (.str "Label")))),
                      ("value", (objLookup dp "value").getD (.int 0))]
            | other => .obj [("label", .str (pyStr other)), ("value", .int 0)]))
      | _ => objSet md "dataPoints" (.arr [])

/-- `ContentAnalyzer._ai_analyze` after the completion call: field defaulting,
visual-type validation, chart metadata sanitisation, and the catch-all error
fallback. -/
def aiAnalyze (raw : Except String AiRaw) : Analysis :=
  match raw with
  | .error e =>
      { visualType := "none", confidence := 0, metadata := .obj [],
        reasoning := "Analysis failed: " ++ e }
  | .ok r =>
      let vt0 := r.visualType.getD "none"
      let conf0 := r.confidence.getD 50
      let md0 := r.metadata.getD (.obj [])
      let reasoning := r.reasoning.getD "AI analysis completed"
      let validTypes := ["diagram", "chart", "math", "illustration", "none"]
      let vt := if validTypes.contains vt0 then vt0 else "none"
      let conf := if validTypes.contains vt0 then conf0 else 30
      let md := if vt == "chart" then sanitizeChartMeta md0 else md0
      { visualType := vt, confidence := conf, metadata := md, reasoning := reasoning }

/-- `ContentAnalyzer.analyze_slide`.  The boolean records whether the
LLM-backed classifier was invoked.  `subject` only feeds the LLM prompt. -/
def analyzeSlide (title content subject : String) (ai : Except String AiRaw) :
    Analysis × Bool :=
  match quickDetect title content with
  | some q =>
      if q.confidence ≥ 90 then (q, false)
      else
        let a := aiAnalyze ai
        let a :=
          if q.confidence ≥ 70 && q.visualType == a.visualType then
            { a with confidence := pyMin 100 (a.confidence + 10) }
          else a
        (a, true)
  | none => (aiAnalyze ai, true)

/-! ### Chart generator (`app/services/chart_generator.py`) -/

/-- One labelled data point, value as the exact rational of the Python float. -/
structure DataPoint where
  label : String
  value : ℚ
deriving Repr, DecidableEq

/-- Greedy number `(\d+(?:\.\d+)?)`, returning the exact value. -/
def matchNumQ (r : List Char) : Option (ℚ × List Char) :=
  let (ds, r1) := r.span isAsciiDigit
  if ds.isEmpty then none
  else
    match r1 with
    | dot :: r2 =>
        if dot == '.' then
          let (fs, r3) := r2.span isAsciiDigit
          if fs.isEmpty then some ((digitsToNat ds : ℚ), r1)
          else some (decimalToRat ds fs, r3)
        else some ((digitsToNat ds : ℚ), r1)
    | [] => some ((digitsToNat ds : ℚ), r1)

/-- Continuation `\s*:\s*(\d+(?:\.\d+)?)` of the first chart pattern. -/
def matchColonNumQ (r : List Char) : Option (ℚ × List Char) :=
  match dropSpaces r with
  | c :: r1 => if c == ':' then matchNumQ (dropSpaces r1) else none
  | [] => none

/-- Matcher for the first chart pattern `(\d{4}|\w+)\s*:\s*(\d+(?:\.\d+)?)`
of `_extract_data_from_content` (four-digit branch first, then `\w+`). -/
def matchChartP1At (l : List Char) : Option ((String × ℚ) × List Char) :=
  let d4 := l.take 4
  let tryA : Option ((String × ℚ) × List Char) :=
    if d4.length == 4 && d4.all isAsciiDigit then
      match matchColonNumQ (l.drop 4) with
      | some (v, rest) => some ((String.mk d4, v), rest)
      | none => none
    else none
  match tryA with
  | some x => some x
  | none =>
      let (w, r) := l.span isWordChar
      if w.isEmpty then none
      else
        match matchColonNumQ r with
        | some (v, rest) => some ((String.mk w, v), rest)
        | none => none

/-- Matcher for the second chart pattern
`(\w+)\s*[(\-]\s*(\d+(?:\.\d+)?)\s*([KMB%])?` of `_extract_data_from_content`;
the unit group is `""` when absent, as `re.findall` reports it. -/
def matchChartP2At (l : List Char) : Option ((String × ℚ × String) × List Char) :=
  let (w, r) := l.span isWordChar
  if w.isEmpty then none
  else
    match dropSpaces r with
    | c :: r1 =>
        if c == '(' || c == '-' then
          match matchNumQ (dropSpaces r1) with
          | some (v, r2) =>
              let r3 := dropSpaces r2
              match r3 with
              | u :: r4 =>
                  if u == 'K' || u == 'M' || u == 'B' || u == '%' then
                    some ((String.mk w, v, String.singleton u), r4)
                  else some ((String.mk w, v, ""), r3)
              | [] => some ((String.mk w, v, ""), r3)
          | none => none
        else none
    | [] => none

/-- Unit multiplier lookup of `_extract_data_from_content` (`K`, `M`, `B`;
anything else, including `%` and the empty unit, leaves the value as is). -/
def unitMultiplier (u : String) : ℚ :=
  if u == "K" then 1000
  else if u == "M" then 1000000
  else if u == "B" then 1000000000
  else 1

/-- `_extract_data_from_content`: pattern one, pattern two only when pattern
one produced nothing, capped to 10 points. -/
def extractDataFromContent (content : String) : List DataPoint :=
  let p1 := findallGen matchChartP1At content
  let p2 := findallGen matchChartP2At content
  let pts1 := p1.map (fun m => DataPoint.mk m.1 m.2)
  let pts := pts1 ++
    (if !p2.isEmpty && pts1.isEmpty then
       p2.map (fun m => DataPoint.mk m.1 (m.2.1 * unitMultiplier m.2.2))
     else [])
  pts.take 10

/-- The colour palette of `_build_chart_config`. -/
def chartColors : List String :=
  ["#3b82f6", "#10b981", "#f59e0b", "#ef4444", "#8b5cf6", "#ec4899", "#06b6d4", "#f97316"]

/-- `_build_chart_config`: the Chart.js configuration dict. -/
def buildChartConfig (title chartType : String) (dataPoints : List DataPoint) : Json :=
  let labels := dataPoints.map (·.label)
  let values := dataPoints.map (·.value)
  let datasetConfig : Json :=
    if chartType == "pie" then
      .obj [("data", .arr (values.map .rat)),
            ("backgroundColor", .arr ((chartColors.take values.length).map .str)),
            ("borderWidth", .int 2),
            ("borderColor", .str "#ffffff")]
    else
      .obj [("label", .str title),
            ("data", .arr (values.map .rat)),
            ("backgroundColor", .str (chartColors.headD "" ++ "80")),
            ("borderColor", .str (chartColors.headD "")),
            ("borderWidth", .int 2),
            ("fill", .bool (chartType == "line"))]
  .obj [("type", .str chartType),
        ("data", .obj [("labels", .arr (labels.map .str)),
                       ("datasets", .arr [datasetConfig])]),
        ("options", .obj
          [("responsive", .bool true),
           ("plugins", .obj
             [("title", .obj [("display", .bool true), ("text", .str title),
                              ("font", .obj [("size", .int 16)])]),
              ("legend", .obj [("display", .bool (chartType == "pie")),
                               ("position", .str "bottom")])]),
           ("scales", .obj
             [("y", if chartType != "pie" then .obj [("beginAtZero", .bool true)]
                    else .obj [])])])]

/-- `_generate_quickchart_url`: serialise `{type, data}` and percent-encode it
into the QuickChart URL (`chart_type` is unused in the source as well). -/
def generateQuickchartUrl (chartConfig : Json) (chartType : String) : String :=
  let simpleConfig := Json.obj
    [("type", (objLookup chartConfig "type").getD .null),
     ("data", (objLookup chartConfig "data").getD .null)]
  "https://quickchart.io/chart?c=" ++ percentQuote (jsonDumps simpleConfig) ++
    "&width=1800&height=1200&backgroundColor=white&devicePixelRatio=2.5"

/-- Result record of `generate_chart_config`; the failure record of the
source has no `dataPoints` key, modelled by `none`. -/
structure ChartResult where
  chartConfig : Json
  chartType : String
  quickChartUrl : String
  dataPoints : Option (List DataPoint)
  success : Bool
deriving Repr

/-- `generate_chart_config`.  `dataPointsArg` is the optional pre-extracted
argument (Python `None` and `[]` are both falsy, so a list with emptiness
checks models it); `aiData` is the catch-wrapped `_ai_extract_data` call,
which returns `[]` on any error. -/
def generateChartConfig (title content chartType : String)
    (dataPointsArg : List DataPoint) (aiData : Except String (List DataPoint)) :
    ChartResult :=
  let dps := if dataPointsArg.isEmpty then extractDataFromContent content else dataPointsArg
  let dps := if dps.isEmpty then (match aiData with | .ok l => l | .error _ => []) else dps
  if dps.length < 2 then
    { chartConfig := .obj [], chartType := chartType, quickChartUrl := "",
      dataPoints := none, success := false }
  else
    let cfg := buildChartConfig title chartType dps
    { chartConfig := cfg, chartType := chartType,
      quickChartUrl := generateQuickchartUrl cfg chartType,
      dataPoints := some dps, success := true }

/-! ### Math generator (`app/services/math_generator.py`) -/

/-- Body-and-closer search for the LaTeX dollar pattern: lazy `(.*?)` (dot
excludes newline) followed by `\$\$?`. -/
def dollarBody (r : List Char) : Option (String × List Char) :=
  let (body, rest) := r.span (fun c => c != '$' && c != '\n')
  match rest with
  | d :: r2 =>
      if d == '$' then
        match r2 with
        | e :: r3 => if e == '$' then some (String.mk body, r3) else some (String.mk body, r2)
        | [] => some (String.mk body, r2)
      else none
  | [] => none

/-- Matcher for the pattern `\$\$?(.*?)\$\$?` of `_extract_equations`: greedy
optional second opening dollar tried first, with backtracking into the
single-dollar alternative. -/
def matchDollarAt (l : List Char) : Option (String × List Char) :=
  match l with
  | c :: r =>
      if c == '$' then
        match r with
        | c2 :: r2 =>
            if c2 == '$' then
              match dollarBody r2 with
              | some x => some x
              | none => dollarBody r
            else dollarBody r
        | [] => dollarBody r
      else none
  | [] => none

/-- Matcher for the simple equation pattern `([a-zA-Z]\s*=\s*[^.;,\n]+)` of
`_extract_equations`. -/
def matchSimpleEqAt (l : List Char) : Option (String × List Char) :=
  match l with
  | c :: r =>
      if isAsciiAlpha c then
        let (sp1, r1) := r.span isPySpace
        match r1 with
        | e :: r2 =>
            if e == '=' then
              let (sp2, r3) := r2.span isPySpace
              let (body, r4) := r3.span
                (fun ch => ch != '.' && ch != ';' && ch != ',' && ch != '\n')
              if body.isEmpty then none
              else some (String.mk (c :: sp1 ++ e :: sp2 ++ body), r4)
            else none
        | [] => none
      else none
  | [] => none

/-- `_extract_equations` of the math generator: LaTeX dollar matches first,
simple equations only when the former produced nothing, capped to 10. -/
def extractEquations (content : String) : List String :=
  let latex := findallGen matchDollarAt content
  let eqm := findallGen matchSimpleEqAt content
  let equations := latex ++ (if !eqm.isEmpty && latex.isEmpty then eqm else [])
  equations.take 10

/-! ### Deck agents (`app/agents/deck_agents.py`) -/

/-- One outline entry as returned by the outline LLM call: a JSON dict each of
whose keys may be absent (`.get` with defaults throughout the source). -/
structure OutlineEntry where
  title : Option String
  slideType : Option String
  type : Option String
  bloom_level : Option String
  objective : Option String
deriving Repr, DecidableEq

/-- The parsed JSON reply of the outline completion; the `slides` field models
`result.get("slides", [])`. -/
structure OutlineJson where
  slides : Option (List OutlineEntry)
deriving Repr

/-- `bloom_order` of `_validate_bloom_progression`. -/
def bloomOrder : List String :=
  ["REMEMBER", "UNDERSTAND", "APPLY", "ANALYZE", "EVALUATE", "CREATE"]

/-- `bloom_order.index(level)`; Python raises `ValueError` on a miss, which
the validator catches, so the miss is an `Option`. -/
def bloomIndex (level : String) : Option Nat := bloomOrder.indexOf? level

/-- Warnings the Bloom progression validator can log. -/
inductive BloomWarning where
  | regression (slideIdx : Nat) (prevLevel currLevel : String)
  | invalidLevel (slideIdx : Nat) (currLevel : String)
deriving Repr, DecidableEq

/-- Decision on one adjacent pair given the two level lookups: a failed
lookup on either side is the `ValueError` branch (which logs the later
slide's level); otherwise warn exactly when the index drops below the
previous index minus one. -/
def warnPairCore (i : Nat) (prevLevel currLevel : String) :
    Option Nat → Option Nat → Option BloomWarning
  | none, _ => some (.invalidLevel i currLevel)
  | some _, none => some (.invalidLevel i currLevel)
  | some prevIdx, some currIdx =>
      if currIdx < prevIdx - 1 then some (.regression i prevLevel currLevel) else none

/-- Check of one adjacent pair `(slides[i-1], slides[i])`; `i` is the index of
the later slide, the index the log message reports. -/
def warnPair (i : Nat) (a b : OutlineEntry) : Option BloomWarning :=
  warnPairCore i (a.bloom_level.getD "UNDERSTAND") (b.bloom_level.getD "UNDERSTAND")
    (bloomIndex (a.bloom_level.getD "UNDERSTAND"))
    (bloomIndex (b.bloom_level.getD "UNDERSTAND"))

/-- Loop of `_validate_bloom_progression` over `range(i, len(slides))`. -/
def validateAux : Nat → List OutlineEntry → List BloomWarning
  | _, [] => []
  | _, [_] => []
  | i, a :: b :: rest => (warnPair i a b).toList ++ validateAux (i + 1) (b :: rest)

/-- `OutlinerAgent._validate_bloom_progression`: the list of warnings that get
logged; the function has no other effect and never rejects. -/
def validateBloomProgression (slides : List OutlineEntry) : List BloomWarning :=
  validateAux 1 slides

/-- Python `str.isdigit`-guarded grade parsing of `create_outline`. -/
def gradeNum (gradeLevel : String) : Nat :=
  if !gradeLevel.isEmpty && gradeLevel.toList.all isAsciiDigit
  then digitsToNat gradeLevel.toList else 8

/-- Curriculum selection of `create_outline`. -/
def curriculum (gradeLevel : String) : String :=
  if gradeNum gradeLevel ≥ 11 then "ISC" else "ICSE"

/-- The fixed fallback skeleton of `create_outline`'s except branch. -/
def fallbackOutline (topic : String) : List OutlineEntry :=
  [{ title := some ("Introduction to " ++ topic), slideType := some "INTRODUCTION",
     type := none, bloom_level := some "REMEMBER", objective := some "Define key terms" },
   { title := some "Key Concepts", slideType := some "CONCEPT",
     type := none, bloom_level := some "UNDERSTAND", objective := some "Explain main ideas" },
   { title := some "Application", slideType := some "ACTIVITY",
     type := none, bloom_level := some "APPLY", objective := some "Apply knowledge" },
   { title := some "Summary", slideType := some "SUMMARY",
     type := none, bloom_level := some "CREATE", objective := some "Synthesize learning" }]

/-- `OutlinerAgent.create_outline`.  `standardsResult` is the catch-wrapped
RAG retrieval, which only feeds the prompt text; `jsonResult` is the outline
completion call, whose failure selects the fixed fallback.  Validation is
log-only, so the success branch returns the parsed slides unchanged. -/
def createOutline (topic subject gradeLevel : String)
    (standardsResult : Except String (List String))
    (jsonResult : Except String OutlineJson) : List OutlineEntry :=
  match jsonResult with
  | .ok result => result.slides.getD []
  | .error _ => fallbackOutline topic

instance {ε α : Type} [DecidableEq ε] [DecidableEq α] : DecidableEq (Except ε α) :=
  fun x y =>
    match x, y with
    | .ok a, .ok b =>
        if h : a = b then .isTrue (congrArg Except.ok h)
        else .isFalse (fun hh => h (Except.ok.inj hh))
    | .ok _, .error _ => .isFalse (fun hh => Except.noConfusion hh)
    | .error _, .ok _ => .isFalse (fun hh => Except.noConfusion hh)
    | .error e, .error f =>
        if h : e = f then .isTrue (congrArg Except.error h)
        else .isFalse (fun hh => h (Except.error.inj hh))

/-- Per-slide outcomes of the external calls inside `generate_single_slide`:
the content stream, the speaker-notes stream (whose failures
`generate_speaker_notes` catches itself), and the image-query call (whose
failures are caught around the `VisualDirectorAgent` call). -/
structure SlideEnv where
  contentResult : Except String String
  notesResult : Except String String
  imageQueryResult : Except String (Option String)
deriving Repr, DecidableEq

/-- Fully populated slide dict produced by `generate_all_slides_parallel`. -/
structure SlideDict where
  title : String
  content : String
  order : Nat
  slideType : String
  bloom_level : String
  speakerNotes : String
  imageQuery : Option String
  objective : String
deriving Repr, DecidableEq

/-- `ContentAgent.generate_speaker_notes`: the collected, stripped stream, or
the fixed teaching-tip fallback on error. -/
def generateSpeakerNotes (r : Except String String) (bloomLevel : String) : String :=
  match r with
  | .ok s => s.trim
  | .error _ =>
      "Teaching tip: Focus on " ++ pyLower bloomLevel ++
        "-level skills when presenting this content."

/-- The placeholder slide of `generate_single_slide`'s except branch. -/
def placeholderSlide (plan : OutlineEntry) (index : Nat) : SlideDict :=
  { title := plan.title.getD ("Slide " ++ toString (index + 1)),
    content := "Content generation in progress. Please regenerate this slide.",
    order := index,
    slideType := plan.slideType.getD (plan.type.getD "CONCEPT"),
    bloom_level := plan.bloom_level.getD "UNDERSTAND",
    speakerNotes := "",
    imageQuery := none,
    objective := plan.objective.getD "" }

/-- `generate_single_slide`: the whole body is try-wrapped; a failing content
stream is the error that reaches the except branch, while notes and
image-query failures are absorbed locally.  Image queries are skipped for
SUMMARY slides. -/
def generateSingleSlide (plan : OutlineEntry) (index : Nat) (env : SlideEnv) : SlideDict :=
  match env.contentResult with
  | .error _ => placeholderSlide plan index
  | .ok content =>
      let notes := generateSpeakerNotes env.notesResult (plan.bloom_level.getD "UNDERSTAND")
      let slideTypeStr := plan.slideType.getD (plan.type.getD "CONCEPT")
      let imageQuery :=
        if slideTypeStr != "SUMMARY" then
          match env.imageQueryResult with
          | .ok q => q
          | .error _ => none
        else none
      { title := plan.title.getD ("Slide " ++ toString (index + 1)),
        content := content,
        order := index,
        slideType := slideTypeStr,
        bloom_level := plan.bloom_level.getD "UNDERSTAND",
        speakerNotes := notes,
        imageQuery := imageQuery,
        objective := plan.objective.getD "" }

/-- `generate_all_slides_parallel`: one task per outline entry, indexed by
`enumerate`, joined in input order by `asyncio.gather`. -/
def generateAllSlidesParallel (outline : List OutlineEntry) (envs : Nat → SlideEnv) :
    List SlideDict :=
  outline.enum.map (fun p => generateSingleSlide p.2 p.1 (envs p.1))

/-! ### Differentiation service (`app/services/differentiation.py`) -/

/-- `DifferentiationLevel` str-enum. -/
inductive DifferentiationLevel where
  | SUPPORT
  | CORE
  | EXTENSION
deriving Repr, DecidableEq

/-- The string value of a `DifferentiationLevel` member. -/
def levelTag : DifferentiationLevel → String
  | .SUPPORT => "SUPPORT"
  | .CORE => "CORE"
  | .EXTENSION => "EXTENSION"

/-- `VisualMetadata` of the lesson schema. -/
structure VisualMetadataM where
  visualType : Option String
  visualConfig : Option Json
  confidence : Option ℚ
  generatedBy : Option String
  reasoning : Option String
deriving Repr

/-- Pydantic `Slide` of the lesson schema; `bloom_level` is kept as the
string value the `BloomLevel` str-enum member compares equal to. -/
structure Slide where
  title : String
  content : String
  order : Int
  slideType : String
  bloom_level : String
  objective : Option String
  speakerNotes : Option String
  imageQuery : Option String
  imageUrl : Option String
  visualMetadata : Option VisualMetadataM
deriving Repr

/-- `LessonMetadata` fields the differentiation service reads and rebuilds
(`lesson_id` and `created_at` are regenerated defaults, left out). -/
structure LessonMetadataM where
  topic : String
  subject : String
  grade : String
  standards : List String
  theme : String
  pedagogical_model : String
deriving Repr, DecidableEq

/-- `LearningStructure` of the lesson schema. -/
structure LearningStructureM where
  learning_objectives : List (String × String)
  vocabulary : List (String × String)
  prerequisites : List String
  bloom_progression : List String
deriving Repr, DecidableEq

/-- `LessonDeck` of the lesson schema (`structure` is a Lean keyword, hence
`struct`). -/
structure LessonDeck where
  meta : LessonMetadataM
  struct : LearningStructureM
  slides : List Slide
deriving Repr

/-- `_generate_differentiation_note`; the content arguments are unused in the
source as well. -/
def generateDifferentiationNote (level : DifferentiationLevel)
    (originalContent newContent : String) : String :=
  match level with
  | .SUPPORT =>
      "SUPPORT Level: Simplified vocabulary and concepts for struggling learners. Focus on foundational understanding."
  | .EXTENSION =>
      "EXTENSION Level: Advanced content with critical thinking challenges for gifted learners. Emphasizes higher-order skills."
  | .CORE => "CORE Level: Standard grade-level content."

/-- Allowed Bloom levels for SUPPORT filtering. -/
def supportLevels : List String := ["REMEMBER", "UNDERSTAND"]

/-- Allowed Bloom levels for EXTENSION filtering. -/
def extensionLevels : List String := ["APPLY", "ANALYZE", "EVALUATE", "CREATE"]

/-- `DifferentiationService._filter_slides_by_bloom`. -/
def filterSlidesByBloom (slides : List Slide) (level : DifferentiationLevel) :
    List Slide :=
  match level with
  | .CORE => slides
  | _ =>
      let allowedLevels := if level = .SUPPORT then supportLevels else extensionLevels
      let filtered := slides.filter (fun s => allowedLevels.contains s.bloom_level)
      if filtered.length < 2 then slides.take 5 else filtered

/-- `DifferentiationService.differentiate_slide_content`; `rewriteResult` is
the level-specific streamed rewrite (`_generate_support_content` or
`_generate_extension_content`). -/
def differentiateSlideContent (slide : Slide) (targetLevel : DifferentiationLevel)
    (grade subject : String) (rewriteResult : Except String String) : Slide :=
  match targetLevel with
  | .CORE => slide
  | _ =>
      match rewriteResult with
      | .ok newContent =>
          { slide with
            content := newContent,
            speakerNotes := some (generateDifferentiationNote targetLevel slide.content newContent) }
      | .error _ => slide

/-- `DifferentiationService.generate_differentiated_deck`; `rewrites i` is the
outcome of the rewrite task of the i-th surviving slide. -/
def generateDifferentiatedDeck (coreDeck : LessonDeck)
    (targetLevel : DifferentiationLevel) (rewrites : Nat → Except String String) :
    LessonDeck :=
  match targetLevel with
  | .CORE => coreDeck
  | _ =>
      let filtered := filterSlidesByBloom coreDeck.slides targetLevel
      let differentiatedSlides := filtered.enum.map (fun p =>
        differentiateSlideContent p.2 targetLevel coreDeck.meta.grade
          coreDeck.meta.subject (rewrites p.1))
      { meta := { topic := coreDeck.meta.topic ++ " (" ++ levelTag targetLevel ++ " Level)",
                  subject := coreDeck.meta.subject,
                  grade := coreDeck.meta.grade,
                  standards := coreDeck.meta.standards,
                  theme := coreDeck.meta.theme,
                  pedagogical_model := coreDeck.meta.pedagogical_model },
        struct := { learning_objectives := coreDeck.struct.learning_objectives,
                    vocabulary := coreDeck.struct.vocabulary,
                    prerequisites := coreDeck.struct.prerequisites,
                    bloom_progression := differentiatedSlides.map (·.bloom_level) },
        slides := differentiatedSlides }

/-! ### Deck assembly fan-in (`app/routers/deck.py`, `generate_deck`) -/

/-- One slide dict of the LLM deck-generation result: the fan-in reads its
`title`, raw `content` and `order`. -/
structure GenSlide where
  title : String
  content : Json
  order : Int
deriving Repr

/-- Routing decision dict as consumed by the fan-in. -/
structure Route where
  visualType : Option String
  visualConfig : Json
  confidence : Option ℚ
  generatedBy : Option String
  reasoning : Option String
deriving Repr

/-- Visual generation result dict as consumed by the fan-in. -/
structure RenderResult where
  type : String
  data : Json
  success : Bool
  error : Option String
deriving Repr

/-- The pydantic `serialize_content` validator of the lesson `Slide` model:
content is coerced to a string on construction. -/
def serializeContent (v : Json) : String :=
  match v with
  | .str s => s
  | .arr l => String.intercalate "\n" (l.map pyStr)
  | .obj l => jsonDumps (.obj l)
  | other => pyStr other

/-- Response slide assembled by `generate_deck` (fields the fan-in fills). -/
structure AsmSlide where
  title : String
  content : String
  order : Int
  visualMetadata : Option VisualMetadataM
deriving Repr

/-- Assembly of one zipped triple in `generate_deck`'s fan-in loop. -/
def mkAsmSlide (g : GenSlide) (route : Route) (result : RenderResult) : AsmSlide :=
  let visualMetadata :=
    if route.visualType.isSome && result.success then
      some { visualType := route.visualType.getD "",
             visualConfig := some (objSet route.visualConfig "generatedData" result.data),
             confidence := route.confidence,
             generatedBy := route.generatedBy,
             reasoning := route.reasoning }
    else none
  { title := g.title,
    content := serializeContent g.content,
    order := g.order,
    visualMetadata := visualMetadata }

/-- The fan-in `zip` loop of `generate_deck`: one assembled slide per zipped
triple, truncating at the shortest input as `zip` does. -/
def assembleDeck : List GenSlide → List Route → List RenderResult → List AsmSlide
  | [], _, _ => []
  | _ :: _, [], _ => []
  | _ :: _, _ :: _, [] => []
  | g :: gs, r :: rs, v :: vs => mkAsmSlide g r v :: assembleDeck gs rs vs

/-- `generate_visual` on a chart-routed slide: a successful chart result is
unwrapped; a failed one raises inside the try and becomes the failure
record. -/
def generateVisualChart (cr : ChartResult) : RenderResult :=
  if cr.success then
    { type := "chart",
      data := .obj [("config", cr.chartConfig),
                    ("chartType", .str cr.chartType),
                    ("quickChartUrl", .str cr.quickChartUrl),
                    ("dataPoints", .arr ((cr.dataPoints.getD []).map fun p =>
                      .obj [("label", .str p.label), ("value", .rat p.value)]))],
      success := true,
      error := none }
  else
    { type := "chart", data := .obj [], success := false,
      error := some "Chart generation failed" }

/-- Slide index a Bloom warning reports. -/
def BloomWarning.idx : BloomWarning → Nat
  | .regression i _ _ => i
  | .invalidLevel i _ => i

/-! ### Concrete fixtures used by witnesses and counterexamples -/

/-- A slide with only the fields the differentiation code reads populated. -/
def mkSimpleSlide (title bloom : String) (order : Int) : Slide :=
  { title := title, content := "core content", order := order, slideType := "CONCEPT",
    bloom_level := bloom, objective := none, speakerNotes := none,
    imageQuery := none, imageUrl := none, visualMetadata := none }

/-- Metadata shared by the fixture decks. -/
def fixtureMeta : LessonMetadataM :=
  { topic := "Photosynthesis", subject := "Science", grade := "8",
    standards := [], theme := "default", pedagogical_model := "I_DO_WE_DO_YOU_DO" }

/-- Empty learning structure for the fixture decks. -/
def fixtureStruct : LearningStructureM :=
  { learning_objectives := [], vocabulary := [], prerequisites := [],
    bloom_progression := [] }

/-- The 10-slide core deck of the spec's differentiation example, cognitive
levels `[REMEMBER, UNDERSTAND, APPLY, APPLY, ANALYZE, ANALYZE, EVALUATE,
EVALUATE, CREATE, CREATE]`. -/
def c1Slides : List Slide :=
  [mkSimpleSlide "S0" "REMEMBER" 0, mkSimpleSlide "S1" "UNDERSTAND" 1,
   mkSimpleSlide "S2" "APPLY" 2, mkSimpleSlide "S3" "APPLY" 3,
   mkSimpleSlide "S4" "ANALYZE" 4, mkSimpleSlide "S5" "ANALYZE" 5,
   mkSimpleSlide "S6" "EVALUATE" 6, mkSimpleSlide "S7" "EVALUATE" 7,
   mkSimpleSlide "S8" "CREATE" 8, mkSimpleSlide "S9" "CREATE" 9]

/-- Deck around `c1Slides`. -/
def c1Deck : LessonDeck :=
  { meta := fixtureMeta, struct := fixtureStruct, slides := c1Slides }

/-- Deck whose SUPPORT-surviving slides carry the original order values 5 and
7, exposing that differentiation does not renumber. -/
def c9Deck : LessonDeck :=
  { meta := fixtureMeta, struct := fixtureStruct,
    slides := [mkSimpleSlide "A" "APPLY" 0, mkSimpleSlide "B" "REMEMBER" 5,
               mkSimpleSlide "C" "UNDERSTAND" 7] }

/-- Single-slide fixture for the rewrite frame witness. -/
def c9Slide : Slide := mkSimpleSlide "T" "REMEMBER" 4

/-- Two-entry outline fixture for the parallel-generation witness. -/
def c3Outline : List OutlineEntry :=
  [{ title := some "Intro", slideType := some "INTRODUCTION", type := none,
     bloom_level := some "REMEMBER", objective := some "Define" },
   { title := some "Concepts", slideType := some "CONCEPT", type := none,
     bloom_level := some "UNDERSTAND", objective := some "Explain" }]

/-- Environment whose content stream raises. -/
def c3EnvFail : SlideEnv :=
  { contentResult := .error "boom", notesResult := .ok "notes",
    imageQueryResult := .ok (some "query") }

/-- Environment whose calls all succeed. -/
def c3EnvOk : SlideEnv :=
  { contentResult := .ok "generated content", notesResult := .ok "notes",
    imageQueryResult := .ok (some "query") }

/-- Per-slide environments: slide 0 fails, the rest succeed. -/
def c3Envs : Nat → SlideEnv := fun i => if i = 0 then c3EnvFail else c3EnvOk

/-- Two-entry outline with a two-step Bloom regression (APPLY to REMEMBER). -/
def c7Slides : List OutlineEntry :=
  [{ title := some "Apply", slideType := some "ACTIVITY", type := none,
     bloom_level := some "APPLY", objective := none },
   { title := some "Recall", slideType := some "INTRODUCTION", type := none,
     bloom_level := some "REMEMBER", objective := none }]

end EduAI

namespace EduAI

/-! ## Theorems -/

/-- The differentiated content keeps the slide's Bloom level in every case. -/
theorem differentiateSlideContent_bloom (s : Slide) (level : DifferentiationLevel)
    (grade subject : String) (r : Except String String) :
    (differentiateSlideContent s level grade subject r).bloom_level = s.bloom_level := by
  cases level <;> cases r <;> rfl

/-- C1: for SUPPORT, `_filter_slides_by_bloom` keeps exactly the
REMEMBER/UNDERSTAND slides (APPLY/ANALYZE/EVALUATE/CREATE for EXTENSION)
whenever at least 2 survive; with fewer than 2 survivors — in particular with
zero matching slides — it returns the first 5 slides of the unfiltered deck;
and `generate_differentiated_deck` derives its slides exactly from that
filtered set. -/
theorem c1_bloom_filter (slides : List Slide) (deck : LessonDeck)
    (rewrites : Nat → Except String String) :
    (2 ≤ (slides.filter (fun s => supportLevels.contains s.bloom_level)).length →
      filterSlidesByBloom slides .SUPPORT =
        slides.filter (fun s => supportLevels.contains s.bloom_level)) ∧
    ((slides.filter (fun s => supportLevels.contains s.bloom_level)).length < 2 →
      filterSlidesByBloom slides .SUPPORT = slides.take 5) ∧
    ((∀ s ∈ slides, supportLevels.contains s.bloom_level = false) →
      filterSlidesByBloom slides .SUPPORT = slides.take 5) ∧
    (2 ≤ (slides.filter (fun s => extensionLevels.contains s.bloom_level)).length →
      filterSlidesByBloom slides .EXTENSION =
        slides.filter (fun s => extensionLevels.contains s.bloom_level)) ∧
    ((slides.filter (fun s => extensionLevels.contains s.bloom_level)).length < 2 →
      filterSlidesByBloom slides .EXTENSION = slides.take 5) ∧
    ((generateDifferentiatedDeck deck .SUPPORT rewrites).slides.map (·.bloom_level) =
      (filterSlidesByBloom deck.slides .SUPPORT).map (·.bloom_level)) := by
  have hsup : filterSlidesByBloom slides .SUPPORT =
      (if (slides.filter (fun s => supportLevels.contains s.bloom_level)).length < 2
       then slides.take 5
       else slides.filter (fun s => supportLevels.contains s.bloom_level)) := rfl
  have hext : filterSlidesByBloom slides .EXTENSION =
      (if (slides.filter (fun s => extensionLevels.contains s.bloom_level)).length < 2
       then slides.take 5
       else slides.filter (fun s => extensionLevels.contains s.bloom_level)) := rfl
  refine ⟨?_, ?_, ?_, ?_, ?_, ?_⟩
  · intro h; rw [hsup, if_neg (by omega)]
  · intro h; rw [hsup, if_pos h]
  · intro h
    have : slides.filter (fun s => supportLevels.contains s.bloom_level) = [] :=
      List.filter_eq_nil_iff.mpr (fun a ha => by simpa using h a ha)
    rw [hsup, if_pos (by rw [this]; simp)]
  · intro h; rw [hext, if_neg (by omega)]
  · intro h; rw [hext, if_pos h]
  · show ((filterSlidesByBloom deck.slides .SUPPORT).enum.map
        (fun p => differentiateSlideContent p.2 .SUPPORT deck.meta.grade
          deck.meta.subject (rewrites p.1))).map (·.bloom_level) = _
    rw [List.map_map]
    have : ((fun s : Slide => s.bloom_level) ∘
        (fun p : Nat × Slide => differentiateSlideContent p.2 .SUPPORT deck.meta.grade
          deck.meta.subject (rewrites p.1))) =
        (fun p : Nat × Slide => p.2.bloom_level) := by
      funext p; exact differentiateSlideContent_bloom _ _ _ _ _
    rw [this]
    have h2 : (fun p : Nat × Slide => p.2.bloom_level) =
        (fun s : Slide => s.bloom_level) ∘ Prod.snd := rfl
    rw [h2, ← List.map_map, List.enum_map_snd]

/-- C1 witness: on the spec's 10-slide example the SUPPORT filter keeps the 2
REMEMBER/UNDERSTAND slides without triggering the fallback, and on a
zero-match deck SUPPORT returns the first five original slides. -/
theorem c1_bloom_filter_witness :
    2 ≤ (c1Slides.filter (fun s => supportLevels.contains s.bloom_level)).length ∧
    filterSlidesByBloom c1Slides .SUPPORT =
      c1Slides.filter (fun s => supportLevels.contains s.bloom_level) ∧
    filterSlidesByBloom (c1Slides.drop 2) .SUPPORT = (c1Slides.drop 2).take 5 :=
  ⟨by decide,
   (c1_bloom_filter c1Slides c1Deck (fun _ => .ok "x")).1 (by decide),
   (c1_bloom_filter (c1Slides.drop 2) c1Deck (fun _ => .ok "x")).2.2.1
     (by decide)⟩

/-- C4: whenever the outline JSON completion fails, `create_outline` swallows
the error and returns the fixed 4-slide fallback skeleton
INTRODUCTION/REMEMBER, CONCEPT/UNDERSTAND, ACTIVITY/APPLY, SUMMARY/CREATE,
for every topic, subject and grade. -/
theorem c4_outline_fallback (topic subject gradeLevel : String)
    (standardsResult : Except String (List String)) (e : String) :
    createOutline topic subject gradeLevel standardsResult (.error e) =
      [{ title := some ("Introduction to " ++ topic), slideType := some "INTRODUCTION",
         type := none, bloom_level := some "REMEMBER", objective := some "Define key terms" },
       { title := some "Key Concepts", slideType := some "CONCEPT",
         type := none, bloom_level := some "UNDERSTAND", objective := some "Explain main ideas" },
       { title := some "Application", slideType := some "ACTIVITY",
         type := none, bloom_level := some "APPLY", objective := some "Apply knowledge" },
       { title := some "Summary", slideType := some "SUMMARY",
         type := none, bloom_level := some "CREATE", objective := some "Synthesize learning" }] ∧
    (createOutline topic subject gradeLevel standardsResult (.error e)).map
        (fun s => (s.slideType, s.bloom_level)) =
      [(some "INTRODUCTION", some "REMEMBER"), (some "CONCEPT", some "UNDERSTAND"),
       (some "ACTIVITY", some "APPLY"), (some "SUMMARY", some "CREATE")] :=
  ⟨rfl, rfl⟩

/-- C9 counterexample: differentiation keeps each surviving slide's original
`order` (5 and 7 here) instead of renumbering to its new position in the
filtered set (0,1 or 1,2), so the claim's order clause fails on this deck. -/
theorem c9_counterexample :
    ((generateDifferentiatedDeck c9Deck .SUPPORT (fun _ => .ok "new")).slides.map
      (·.order)) = [5, 7] ∧
    ([5, 7] : List Int) ≠ [0, 1] ∧ ([5, 7] : List Int) ≠ [1, 2] :=
  ⟨rfl, by decide, by decide⟩

/-- C9 amended: for SUPPORT/EXTENSION a successful rewrite yields a new slide
differing from the source only in `content` and `speakerNotes` — `title`,
`order` (the original order, not the filtered position), `slideType`, the
Bloom level, `objective`, `imageQuery` and `visualMetadata` are all
unchanged — and a failed rewrite returns the original slide unmodified. -/
theorem c9_rewrite_frame (slide : Slide) (level : DifferentiationLevel)
    (grade subject : String) (rwRes : Except String String) (hl : level ≠ .CORE) :
    (∀ c, rwRes = .ok c →
      differentiateSlideContent slide level grade subject rwRes =
        { slide with content := c,
                     speakerNotes := some (generateDifferentiationNote level slide.content c) }) ∧
    (∀ e, rwRes = .error e → differentiateSlideContent slide level grade subject rwRes = slide) ∧
    ((differentiateSlideContent slide level grade subject rwRes).title = slide.title ∧
     (differentiateSlideContent slide level grade subject rwRes).order = slide.order ∧
     (differentiateSlideContent slide level grade subject rwRes).slideType = slide.slideType ∧
     (differentiateSlideContent slide level grade subject rwRes).bloom_level = slide.bloom_level ∧
     (differentiateSlideContent slide level grade subject rwRes).objective = slide.objective ∧
     (differentiateSlideContent slide level grade subject rwRes).imageQuery = slide.imageQuery ∧
     (differentiateSlideContent slide level grade subject rwRes).visualMetadata = slide.visualMetadata) := by
  cases level with
  | CORE => exact absurd rfl hl
  | SUPPORT =>
      refine ⟨fun c hc => by subst hc; rfl, fun e he => by subst he; rfl, ?_⟩
      cases rwRes <;> exact ⟨rfl, rfl, rfl, rfl, rfl, rfl, rfl⟩
  | EXTENSION =>
      refine ⟨fun c hc => by subst hc; rfl, fun e he => by subst he; rfl, ?_⟩
      cases rwRes <;> exact ⟨rfl, rfl, rfl, rfl, rfl, rfl, rfl⟩

/-- C9 witness: concrete application of the rewrite frame theorem at a
SUPPORT rewrite that succeeds. -/
theorem c9_rewrite_frame_witness :
    DifferentiationLevel.SUPPORT ≠ DifferentiationLevel.CORE ∧
    differentiateSlideContent c9Slide .SUPPORT "8" "Science" (.ok "easy words") =
      { c9Slide with content := "easy words",
                     speakerNotes := some (generateDifferentiationNote .SUPPORT
                       c9Slide.content "easy words") } :=
  ⟨by decide,
   (c9_rewrite_frame c9Slide .SUPPORT "8" "Science" (.ok "easy words")
     (by decide)).1 "easy words" rfl⟩

/-- C10: when the pattern extraction and the AI fallback together yield fewer
than 2 data points, `generate_chart_config` fails softly with an empty config
and empty QuickChart URL, `generate_visual` converts that into a failed
render result, and the deck fan-in therefore leaves the slide's
`visualMetadata` null. -/
theorem c10_chart_skip (title content chartType : String) (aiList : List DataPoint)
    (h : (if (extractDataFromContent content).isEmpty then aiList
          else extractDataFromContent content).length < 2) :
    generateChartConfig title content chartType [] (.ok aiList) =
      { chartConfig := .obj [], chartType := chartType, quickChartUrl := "",
        dataPoints := none, success := false } ∧
    (generateVisualChart (generateChartConfig title content chartType [] (.ok aiList))).success
      = false ∧
    (∀ (g : GenSlide) (route : Route), route.visualType = some "chart" →
      (mkAsmSlide g route
        (generateVisualChart (generateChartConfig title content chartType [] (.ok aiList)))).visualMetadata
        = none) := by
  have hred : generateChartConfig title content chartType [] (.ok aiList) =
      if (if (extractDataFromContent content).isEmpty then aiList
          else extractDataFromContent content).length < 2
      then { chartConfig := .obj [], chartType := chartType, quickChartUrl := "",
             dataPoints := none, success := false }
      else { chartConfig := buildChartConfig title chartType
               (if (extractDataFromContent content).isEmpty then aiList
                else extractDataFromContent content),
             chartType := chartType,
             quickChartUrl := generateQuickchartUrl
               (buildChartConfig title chartType
                 (if (extractDataFromContent content).isEmpty then aiList
                  else extractDataFromContent content)) chartType,
             dataPoints := some (if (extractDataFromContent content).isEmpty then aiList
               else extractDataFromContent content),
             success := true } := rfl
  have h1 : generateChartConfig title content chartType [] (.ok aiList) =
      { chartConfig := .obj [], chartType := chartType, quickChartUrl := "",
        dataPoints := none, success := false } := by
    rw [hred, if_pos h]
  refine ⟨h1, ?_, ?_⟩
  · rw [h1]; rfl
  · intro g route _
    rw [h1]
    simp [mkAsmSlide, generateVisualChart]

/-- C10 witness: a contentless slide with no AI data points produces the soft
failure record. -/
theorem c10_chart_skip_witness :
    (if (extractDataFromContent "hello world").isEmpty then ([] : List DataPoint)
     else extractDataFromContent "hello world").length < 2 ∧
    generateChartConfig "T" "hello world" "bar" [] (.ok []) =
      { chartConfig := .obj [], chartType := "bar", quickChartUrl := "",
        dataPoints := none, success := false } :=
  ⟨by decide, (c10_chart_skip "T" "hello world" "bar" [] (by decide)).1⟩

/-- Every branch of `generate_single_slide` stamps the slide's own index as
its `order`. -/
theorem generateSingleSlide_order (plan : OutlineEntry) (i : Nat) (env : SlideEnv) :
    (generateSingleSlide plan i env).order = i := by
  cases h : env.contentResult <;> simp [generateSingleSlide, h, placeholderSlide]

/-- The fan-in maps a field of each zipped triple, truncating at the shortest
input list. -/
theorem assembleDeck_map_field {α : Type} (f : AsmSlide → α) (g' : GenSlide → α)
    (hf : ∀ g r v, f (mkAsmSlide g r v) = g' g) :
    ∀ (gens : List GenSlide) (routes : List Route) (results : List RenderResult),
      (assembleDeck gens routes results).map f =
        (gens.map g').take (min gens.length (min routes.length results.length))
  | [], routes, results => by simp [assembleDeck]
  | g :: gs, [], results => by simp [assembleDeck]
  | g :: gs, r :: rs, [] => by simp [assembleDeck]
  | g :: gs, r :: rs, v :: vs => by
      show f (mkAsmSlide g r v) :: (assembleDeck gs rs vs).map f = _
      rw [assembleDeck_map_field f g' hf gs rs vs, hf]
      simp only [List.map_cons, List.length_cons, Nat.succ_min_succ, List.take_succ_cons]

/-- The per-index result of parallel generation. -/
theorem generateAllSlidesParallel_getElem (outline : List OutlineEntry)
    (envs : Nat → SlideEnv) (i : Nat) :
    (generateAllSlidesParallel outline envs)[i]? =
      (outline[i]?).map (fun p => generateSingleSlide p i (envs i)) := by
  simp only [generateAllSlidesParallel]
  rw [List.getElem?_map, List.getElem?_enum]
  cases outline[i]? <;> rfl

/-- C5 counterexample: the fan-in copies the upstream `order` values verbatim,
so a generation result carrying the order value 1 twice assembles into a deck
whose order values are `[1, 1]` — neither unique nor a contiguous range. -/
theorem c5_counterexample :
    (assembleDeck
      [{ title := "A", content := .str "a", order := 1 },
       { title := "B", content := .str "b", order := 1 }]
      [{ visualType := none, visualConfig := .obj [], confidence := none,
         generatedBy := none, reasoning := none },
       { visualType := none, visualConfig := .obj [], confidence := none,
         generatedBy := none, reasoning := none }]
      [{ type := "", data := .obj [], success := false, error := none },
       { type := "", data := .obj [], success := false, error := none }]).map (·.order)
      = [1, 1] ∧
    ¬ ([1, 1] : List Int).Nodup :=
  ⟨rfl, by decide⟩

/-- C5 amended: the deck fan-in preserves each slide's upstream `order` field
unchanged (truncating at the shortest zipped input) and enforces no
uniqueness or contiguity of its own; decks whose slides come from
`generate_all_slides_parallel` do get `order = index`, forming exactly the
contiguous range `0..N-1`. -/
theorem c5_order_passthrough (gens : List GenSlide) (routes : List Route)
    (results : List RenderResult) (outline : List OutlineEntry)
    (envs : Nat → SlideEnv) :
    (assembleDeck gens routes results).map (·.order) =
      (gens.map (·.order)).take (min gens.length (min routes.length results.length)) ∧
    (generateAllSlidesParallel outline envs).map (·.order) =
      List.range outline.length := by
  constructor
  · exact assembleDeck_map_field (·.order) (·.order) (fun _ _ _ => rfl) gens routes results
  · simp only [generateAllSlidesParallel, List.map_map]
    rw [List.map_congr_left (fun p _ => generateSingleSlide_order p.2 p.1 (envs p.1))]
    exact List.enum_map_fst outline

/-- C6: every assembled slide's `content` is the string coercion of the
upstream content value: the pydantic `serialize_content` validator flattens a
list by newline-joining its members' `str(...)` forms and an object to its
`json.dumps` form, and exactly that flattened string appears in the returned
slide. -/
theorem c6_content_serialization (gens : List GenSlide) (routes : List Route)
    (results : List RenderResult) :
    (assembleDeck gens routes results).map (·.content) =
      (gens.map (fun g => serializeContent g.content)).take
        (min gens.length (min routes.length results.length)) ∧
    serializeContent (.arr [.str "a", .str "b"]) = "a\nb" ∧
    serializeContent (.obj [("x", .int 1)]) = "\x7b\"x\": 1\x7d" := by
  refine ⟨?_, rfl, ?_⟩
  · exact assembleDeck_map_field (·.content) (fun g => serializeContent g.content)
      (fun _ _ _ => rfl) gens routes results
  · show jsonDumps (Json.obj [("x", Json.int 1)]) = _
    simp [jsonDumps]
    rfl

/-- C3: parallel slide generation returns exactly one slide per outline entry
in outline order; a slide whose content task raises is replaced (alone) by
the placeholder — title preserved, the fixed regenerate message as content,
empty speaker notes, null image query — and each slide's result depends only
on its own outline entry and its own task outcomes. -/
theorem c3_parallel_isolation (outline : List OutlineEntry)
    (envs envs2 : Nat → SlideEnv) :
    (generateAllSlidesParallel outline envs).length = outline.length ∧
    (∀ i (hi : i < outline.length),
      (generateAllSlidesParallel outline envs)[i]? =
        some (generateSingleSlide (outline.get ⟨i, hi⟩) i (envs i))) ∧
    (∀ i (hi : i < outline.length) e, (envs i).contentResult = .error e →
      (generateAllSlidesParallel outline envs)[i]? =
        some (placeholderSlide (outline.get ⟨i, hi⟩) i)) ∧
    (∀ plan i,
      (placeholderSlide plan i).content =
        "Content generation in progress. Please regenerate this slide." ∧
      (placeholderSlide plan i).speakerNotes = "" ∧
      (placeholderSlide plan i).imageQuery = none ∧
      (∀ t, plan.title = some t → (placeholderSlide plan i).title = t)) ∧
    (∀ j (hj : j < outline.length), envs j = envs2 j →
      (generateAllSlidesParallel outline envs)[j]? =
        (generateAllSlidesParallel outline envs2)[j]?) := by
  refine ⟨?_, ?_, ?_, ?_, ?_⟩
  · unfold generateAllSlidesParallel
    rw [List.length_map, List.enum_length]
  · intro i hi
    rw [generateAllSlidesParallel_getElem, List.getElem?_eq_getElem (by simpa using hi)]
    rfl
  · intro i hi e he
    rw [generateAllSlidesParallel_getElem, List.getElem?_eq_getElem (by simpa using hi)]
    show some (generateSingleSlide (outline.get ⟨i, hi⟩) i (envs i)) = _
    rw [show generateSingleSlide (outline.get ⟨i, hi⟩) i (envs i) =
      placeholderSlide (outline.get ⟨i, hi⟩) i from by
        simp [generateSingleSlide, he]]
  · intro plan i
    exact ⟨rfl, rfl, rfl, fun t ht => by simp [placeholderSlide, ht]⟩
  · intro j hj h
    rw [generateAllSlidesParallel_getElem, generateAllSlidesParallel_getElem, h]

/-- C3 witness: in a 2-slide batch whose first content task raises, slide 0
is the placeholder and slide 1 is the normally generated slide. -/
theorem c3_parallel_isolation_witness :
    (c3Envs 0).contentResult = .error "boom" ∧
    (generateAllSlidesParallel c3Outline c3Envs)[0]? =
      some (placeholderSlide (c3Outline.get ⟨0, by decide⟩) 0) ∧
    (generateAllSlidesParallel c3Outline c3Envs)[1]? =
      some (generateSingleSlide (c3Outline.get ⟨1, by decide⟩) 1 (c3Envs 1)) :=
  ⟨rfl,
   (c3_parallel_isolation c3Outline c3Envs c3Envs).2.2.1 0 (by decide) "boom" rfl,
   (c3_parallel_isolation c3Outline c3Envs c3Envs).2.1 1 (by decide)⟩

/-- C8: the numeric-extraction helpers of chart and math metadata are total
functions (the modelled code never raises), return at most 10 items for every
input string, and return the empty list when none of their patterns match. -/
theorem c8_extractor_safety (content : String) :
    (extractMathEquations content).length ≤ 10 ∧
    (extractDataFromContent content).length ≤ 10 ∧
    (extractEquations content).length ≤ 10 ∧
    (findallGen matchEqAt content = [] → findallGen matchLatexCmdAt content = [] →
      extractMathEquations content = []) ∧
    (findallGen matchChartP1At content = [] → findallGen matchChartP2At content = [] →
      extractDataFromContent content = []) ∧
    (findallGen matchDollarAt content = [] → findallGen matchSimpleEqAt content = [] →
      extractEquations content = []) := by
  have hmath : extractMathEquations content =
      (if (findallGen matchEqAt content ++ findallGen matchLatexCmdAt content).isEmpty
       then []
       else (findallGen matchEqAt content ++ findallGen matchLatexCmdAt content).take 5) := rfl
  refine ⟨?_, ?_, ?_, ?_, ?_, ?_⟩
  · rw [hmath]
    split
    · simp
    · rw [List.length_take]; omega
  · obtain ⟨l, hl⟩ : ∃ l : List DataPoint, extractDataFromContent content = l.take 10 :=
      ⟨_, rfl⟩
    rw [hl, List.length_take]; omega
  · obtain ⟨l, hl⟩ : ∃ l : List String, extractEquations content = l.take 10 :=
      ⟨_, rfl⟩
    rw [hl, List.length_take]; omega
  · intro h1 h2; rw [hmath, h1, h2]; rfl
  · intro h1 h2
    have : extractDataFromContent content =
        ((findallGen matchChartP1At content).map (fun m => DataPoint.mk m.1 m.2) ++
          (if !(findallGen matchChartP2At content).isEmpty &&
              ((findallGen matchChartP1At content).map
                (fun m => DataPoint.mk m.1 m.2)).isEmpty then
             (findallGen matchChartP2At content).map
               (fun m => DataPoint.mk m.1 (m.2.1 * unitMultiplier m.2.2))
           else [])).take 10 := rfl
    rw [this, h1, h2]; rfl
  · intro h1 h2
    have : extractEquations content =
        (findallGen matchDollarAt content ++
          (if !(findallGen matchSimpleEqAt content).isEmpty &&
              (findallGen matchDollarAt content).isEmpty then
             findallGen matchSimpleEqAt content
           else [])).take 10 := rfl
    rw [this, h1, h2]; rfl

/-- C8 witness: a plain prose string matches none of the patterns and all
three extractors return the empty list. -/
theorem c8_extractor_safety_witness :
    findallGen matchChartP1At "just words and no data" = [] ∧
    findallGen matchChartP2At "just words and no data" = [] ∧
    extractDataFromContent "just words and no data" = [] ∧
    extractMathEquations "just words and no data" = [] ∧
    extractEquations "just words and no data" = [] :=
  ⟨rfl, rfl,
   (c8_extractor_safety "just words and no data").2.2.2.2.1 rfl rfl,
   (c8_extractor_safety "just words and no data").2.2.2.1 rfl rfl,
   (c8_extractor_safety "just words and no data").2.2.2.2.2 rfl rfl⟩

/-- C2 counterexample: `"x = y + z"` plus `"sin(theta)"` matches exactly two
math pattern families, yet `analyze_slide` does invoke the LLM classifier
(the quick confidence 80 is below the 90 short-circuit threshold) and returns
the LLM's verdict — here `none`, not `math`. -/
theorem c2_counterexample :
    2 ≤ mathScore ((pyLower ("x = y + z" ++ " " ++ "sin(theta)")).toList) ∧
    (analyzeSlide "x = y + z" "sin(theta)" "Math"
      (.ok { visualType := some "none", confidence := some 50,
             metadata := none, reasoning := none })).2 = true ∧
    (analyzeSlide "x = y + z" "sin(theta)" "Math"
      (.ok { visualType := some "none", confidence := some 50,
             metadata := none, reasoning := none })).1.visualType = "none" :=
  ⟨by decide, by decide, by decide⟩

/-- C2 amended: with at least 2 matching math pattern families the quick
detector classifies `math` with confidence `min 95 (70 + 5·score) ≥ 80`, but
`analyze_slide` returns that result without invoking the LLM only when the
confidence reaches 90, i.e. when at least 4 families match; with 2 or 3
families the LLM-backed classifier is invoked. -/
theorem c2_math_pattern_path (title content subject : String) (ai : Except String AiRaw)
    (h : 2 ≤ mathScore ((pyLower (title ++ " " ++ content)).toList)) :
    (∃ q, quickDetect title content = some q ∧ q.visualType = "math" ∧
      80 ≤ q.confidence ∧
      q.confidence =
        pyMin 95 (70 + (mathScore ((pyLower (title ++ " " ++ content)).toList) : Int) * 5)) ∧
    (4 ≤ mathScore ((pyLower (title ++ " " ++ content)).toList) →
      ∃ q, quickDetect title content = some q ∧ q.visualType = "math" ∧
        90 ≤ q.confidence ∧ analyzeSlide title content subject ai = (q, false)) ∧
    (mathScore ((pyLower (title ++ " " ++ content)).toList) < 4 →
      (analyzeSlide title content subject ai).2 = true) := by
  have hq : quickDetect title content = some
      { visualType := "math",
        confidence :=
          pyMin 95 (70 + (mathScore ((pyLower (title ++ " " ++ content)).toList) : Int) * 5),
        metadata := Json.obj [("equations", .arr ((extractMathEquations content).map .str))],
        reasoning := "Detected mathematical notation and equations" } := by
    show (if mathScore ((pyLower (title ++ " " ++ content)).toList) ≥ 2 then _ else _) = _
    rw [if_pos h]
  have ha : analyzeSlide title content subject ai =
      (if (pyMin 95 (70 +
            (mathScore ((pyLower (title ++ " " ++ content)).toList) : Int) * 5)) ≥ 90
       then ({ visualType := "math",
               confidence := pyMin 95 (70 +
                 (mathScore ((pyLower (title ++ " " ++ content)).toList) : Int) * 5),
               metadata :=
                 Json.obj [("equations", .arr ((extractMathEquations content).map .str))],
               reasoning := "Detected mathematical notation and equations" }, false)
       else
         (let a := aiAnalyze ai
          ((if (pyMin 95 (70 +
                (mathScore ((pyLower (title ++ " " ++ content)).toList) : Int) * 5)) ≥ 70 &&
               "math" == a.visualType then
              { a with confidence := pyMin 100 (a.confidence + 10) }
            else a), true))) := by
    unfold analyzeSlide
    rw [hq]
  have hlow : (80 : Int) ≤
      pyMin 95 (70 + (mathScore ((pyLower (title ++ " " ++ content)).toList) : Int) * 5) := by
    unfold pyMin
    split
    · omega
    · omega
  refine ⟨⟨_, hq, rfl, hlow, rfl⟩, ?_, ?_⟩
  · intro h4
    have h90 : (pyMin 95 (70 +
        (mathScore ((pyLower (title ++ " " ++ content)).toList) : Int) * 5)) ≥ 90 := by
      unfold pyMin
      split
      · omega
      · omega
    exact ⟨_, hq, rfl, h90, by rw [ha, if_pos h90]⟩
  · intro h4
    have h90 : ¬ ((pyMin 95 (70 +
        (mathScore ((pyLower (title ++ " " ++ content)).toList) : Int) * 5)) ≥ 90) := by
      unfold pyMin
      split
      · omega
      · omega
    rw [ha, if_neg h90]

/-- C2 witness: concrete application of the amended theorem at the spec's own
example input, which matches exactly two families. -/
theorem c2_math_pattern_path_witness :
    2 ≤ mathScore ((pyLower ("x = y + z" ++ " " ++ "sin(theta)")).toList) ∧
    (∃ q, quickDetect "x = y + z" "sin(theta)" = some q ∧ q.visualType = "math" ∧
      80 ≤ q.confidence ∧
      q.confidence =
        pyMin 95 (70 +
          (mathScore ((pyLower ("x = y + z" ++ " " ++ "sin(theta)")).toList) : Int) * 5)) :=
  ⟨by decide,
   (c2_math_pattern_path "x = y + z" "sin(theta)" "Math"
     (.ok { visualType := some "none", confidence := some 50,
            metadata := none, reasoning := none }) (by decide)).1⟩

/-- The index a warning carries is the pair index the core decision was given. -/
theorem warnPairCore_idx (i : Nat) (lvA lvB : String) (op oc : Option Nat)
    (w : BloomWarning) (h : warnPairCore i lvA lvB op oc = some w) : w.idx = i := by
  cases op with
  | none =>
      simp only [warnPairCore] at h
      injection h with h2
      subst h2
      rfl
  | some p =>
      cases oc with
      | none =>
          simp only [warnPairCore] at h
          injection h with h2
          subst h2
          rfl
      | some c =>
          simp only [warnPairCore] at h
          split at h
          · injection h with h2
            subst h2
            rfl
          · exact Option.noConfusion h

/-- The index a pair warning carries is the pair index. -/
theorem warnPair_idx (i : Nat) (a b : OutlineEntry) (w : BloomWarning)
    (h : warnPair i a b = some w) : w.idx = i :=
  warnPairCore_idx i _ _ _ _ w h

/-- `warnPair` when both level lookups succeed: warn exactly when the current
index drops below the previous index minus one. -/
theorem warnPair_eq_of_idx (i : Nat) (a b : OutlineEntry) (pIdx cIdx : Nat)
    (hp : bloomIndex (a.bloom_level.getD "UNDERSTAND") = some pIdx)
    (hc : bloomIndex (b.bloom_level.getD "UNDERSTAND") = some cIdx) :
    warnPair i a b =
      if cIdx < pIdx - 1 then
        some (.regression i (a.bloom_level.getD "UNDERSTAND")
          (b.bloom_level.getD "UNDERSTAND"))
      else none := by
  unfold warnPair
  rw [hp, hc]
  rfl

/-- Warnings produced from the tail of the scan carry indices at least the
starting index. -/
theorem validateAux_idx_ge : ∀ (i₀ : Nat) (slides : List OutlineEntry) (w : BloomWarning),
    w ∈ validateAux i₀ slides → i₀ ≤ w.idx
  | _, [], w, hw => absurd hw (by simp [validateAux])
  | _, [_], w, hw => absurd hw (by simp [validateAux])
  | i₀, a :: b :: rest, w, hw => by
      rw [show validateAux i₀ (a :: b :: rest) =
        (warnPair i₀ a b).toList ++ validateAux (i₀ + 1) (b :: rest) from rfl] at hw
      rcases List.mem_append.mp hw with h1 | h2
      · cases hpw : warnPair i₀ a b with
        | none => rw [hpw] at h1; simp at h1
        | some w2 =>
            rw [hpw] at h1
            have hww : w = w2 := by simpa using h1
            subst hww
            exact le_of_eq (warnPair_idx i₀ a b w hpw).symm
      · have := validateAux_idx_ge (i₀ + 1) (b :: rest) w h2
        omega

/-- Membership of a regression warning for the pair `(slides[j], slides[j+1])`
in the scan started at `i₀ + 1` is equivalent to a drop of at least two
levels. -/
theorem validateAux_regression_iff (slides : List OutlineEntry) :
    ∀ (i₀ j pIdx cIdx : Nat) (hj : j + 1 < slides.length),
      bloomIndex ((slides.get ⟨j, by omega⟩).bloom_level.getD "UNDERSTAND") = some pIdx →
      bloomIndex ((slides.get ⟨j + 1, hj⟩).bloom_level.getD "UNDERSTAND") = some cIdx →
      (BloomWarning.regression (i₀ + j + 1)
          ((slides.get ⟨j, by omega⟩).bloom_level.getD "UNDERSTAND")
          ((slides.get ⟨j + 1, hj⟩).bloom_level.getD "UNDERSTAND")
        ∈ validateAux (i₀ + 1) slides ↔ cIdx + 1 < pIdx) := by
  induction slides with
  | nil => intro i₀ j pIdx cIdx hj; simp at hj
  | cons a tail ih =>
      cases tail with
      | nil =>
          intro i₀ j pIdx cIdx hj
          simp at hj
      | cons b rest =>
          intro i₀ j pIdx cIdx hj hp hc
          rw [show validateAux (i₀ + 1) (a :: b :: rest) =
            (warnPair (i₀ + 1) a b).toList ++ validateAux (i₀ + 1 + 1) (b :: rest) from rfl]
          cases j with
          | zero =>
              have hpa : bloomIndex (a.bloom_level.getD "UNDERSTAND") = some pIdx := hp
              have hcb : bloomIndex (b.bloom_level.getD "UNDERSTAND") = some cIdx := hc
              constructor
              · intro hmem
                rcases List.mem_append.mp hmem with h1 | h2
                · rw [warnPair_eq_of_idx (i₀ + 1) a b pIdx cIdx hpa hcb] at h1
                  split at h1
                  · omega
                  · simp at h1
                · have := validateAux_idx_ge (i₀ + 1 + 1) (b :: rest) _ h2
                  simp [BloomWarning.idx] at this
              · intro hlt
                apply List.mem_append.mpr
                left
                rw [warnPair_eq_of_idx (i₀ + 1) a b pIdx cIdx hpa hcb,
                  if_pos (show cIdx < pIdx - 1 by omega)]
                exact List.mem_singleton.mpr rfl
          | succ k =>
              have hj2 : k + 1 < (b :: rest).length := by
                simp at hj ⊢
                omega
              have hp2 : bloomIndex
                  (((b :: rest).get ⟨k, by omega⟩).bloom_level.getD "UNDERSTAND") =
                  some pIdx := hp
              have hc2 : bloomIndex
                  (((b :: rest).get ⟨k + 1, hj2⟩).bloom_level.getD "UNDERSTAND") =
                  some cIdx := hc
              constructor
              · intro hmem
                rcases List.mem_append.mp hmem with h1 | h2
                · cases hpw : warnPair (i₀ + 1) a b with
                  | none => rw [hpw] at h1; simp at h1
                  | some w2 =>
                      rw [hpw] at h1
                      have hww := List.mem_singleton.mp (by simpa using h1)
                      have hidx2 := warnPair_idx (i₀ + 1) a b w2 hpw
                      rw [← hww] at hidx2
                      simp [BloomWarning.idx] at hidx2
                · refine (ih (i₀ + 1) k pIdx cIdx hj2 hp2 hc2).mp ?_
                  have h2b : BloomWarning.regression ((i₀ + 1) + k + 1)
                      (((b :: rest).get ⟨k, by omega⟩).bloom_level.getD "UNDERSTAND")
                      (((b :: rest).get ⟨k + 1, hj2⟩).bloom_level.getD "UNDERSTAND")
                      ∈ validateAux (i₀ + 1 + 1) (b :: rest) := by
                    rw [show (i₀ + 1) + k + 1 = i₀ + (k + 1) + 1 from by omega]
                    exact h2
                  exact h2b
              · intro hlt
                apply List.mem_append.mpr
                right
                have hmemTail := (ih (i₀ + 1) k pIdx cIdx hj2 hp2 hc2).mpr hlt
                show BloomWarning.regression (i₀ + (k + 1) + 1)
                    (((b :: rest).get ⟨k, by omega⟩).bloom_level.getD "UNDERSTAND")
                    (((b :: rest).get ⟨k + 1, hj2⟩).bloom_level.getD "UNDERSTAND")
                    ∈ validateAux (i₀ + 1 + 1) (b :: rest)
                rw [show i₀ + (k + 1) + 1 = (i₀ + 1) + k + 1 from by omega]
                exact hmemTail

/-- C7 counterexample: a one-step regression (APPLY to UNDERSTAND) produces
no warning at all — the validator only reacts to drops of two or more
levels — refuting the claim that any one-step-or-greater regression is
logged. -/
theorem c7_counterexample :
    validateBloomProgression
      [{ title := some "Apply it", slideType := some "ACTIVITY", type := none,
         bloom_level := some "APPLY", objective := none },
       { title := some "Recall", slideType := some "CONCEPT", type := none,
         bloom_level := some "UNDERSTAND", objective := none }] = [] ∧
    bloomIndex "APPLY" = some 2 ∧ bloomIndex "UNDERSTAND" = some 1 := by
  decide

/-- C7 amended: the progression validator logs a regression warning for an
adjacent pair exactly when the later slide's level index drops by two or more
(`currIdx + 1 < prevIdx`), and validation never rejects or modifies the
outline — the success path of `create_outline` returns the parsed slides
unchanged whatever the warnings. -/
theorem c7_warn_two_step (slides : List OutlineEntry) (j pIdx cIdx : Nat)
    (hj : j + 1 < slides.length)
    (hp : bloomIndex ((slides.get ⟨j, by omega⟩).bloom_level.getD "UNDERSTAND") = some pIdx)
    (hc : bloomIndex ((slides.get ⟨j + 1, hj⟩).bloom_level.getD "UNDERSTAND") = some cIdx) :
    (BloomWarning.regression (j + 1)
        ((slides.get ⟨j, by omega⟩).bloom_level.getD "UNDERSTAND")
        ((slides.get ⟨j + 1, hj⟩).bloom_level.getD "UNDERSTAND")
      ∈ validateBloomProgression slides ↔ cIdx + 1 < pIdx) ∧
    (∀ (topic subject grade : String) (sr : Except String (List String)) (r : OutlineJson),
      createOutline topic subject grade sr (.ok r) = r.slides.getD []) := by
  constructor
  · have := validateAux_regression_iff slides 0 j pIdx cIdx hj hp hc
    simpa using this
  · intro topic subject grade sr r
    rfl

/-- C7 witness: on a two-slide outline dropping from APPLY to REMEMBER (two
steps), the regression warning is in the validator's output. -/
theorem c7_warn_two_step_witness :
    bloomIndex ((c7Slides.get ⟨0, by decide⟩).bloom_level.getD "UNDERSTAND") = some 2 ∧
    bloomIndex ((c7Slides.get ⟨1, by decide⟩).bloom_level.getD "UNDERSTAND") = some 0 ∧
    BloomWarning.regression 1
        ((c7Slides.get ⟨0, by decide⟩).bloom_level.getD "UNDERSTAND")
        ((c7Slides.get ⟨1, by decide⟩).bloom_level.getD "UNDERSTAND")
      ∈ validateBloomProgression c7Slides :=
  ⟨by decide, by decide,
   (c7_warn_two_step c7Slides 0 2 0 (by decide) (by decide) (by decide)).1.mpr
     (by decide)⟩

end EduAI
